import Mathlib

/-!
Verification of the simpleshark streaming capture engine
(`src/simpleshark/capture/capture.py`) against its specification.

Byte strings are modelled as `List Nat`, Python `bytes.find` as `bytesFind`
(first index or `-1` via `pyFind`), and Python slicing as `pySlice` /
`pySliceFrom` with Python's negative-index semantics.
-/

namespace SimpleShark

/-- Bytes of an ASCII string (every character used here is below 128). -/
def strBytes (s : String) : List Nat := s.data.map Char.toNat

/-- Does `data` start with `pat`? (Python `bytes.startswith`, and the
per-position check underlying `bytes.find`.) -/
def listStartsWith {α : Type} [DecidableEq α] : List α → List α → Bool
  | _, [] => true
  | [], _ :: _ => false
  | d :: ds, p :: ps => if d = p then listStartsWith ds ps else false

/-- First index at which `pat` occurs in `data`, if any
(Python `bytes.find` / `str.find` before the `-1` encoding). -/
def bytesFind {α : Type} [DecidableEq α] : List α → List α → Option Nat
  | data, pat =>
    if listStartsWith data pat then some 0
    else
      match data with
      | [] => none
      | _ :: rest => (bytesFind rest pat).map (· + 1)

/-- Python `bytes.find`: first index of `pat` in `data`, or `-1`. -/
def pyFind {α : Type} [DecidableEq α] (data pat : List α) : Int :=
  match bytesFind data pat with
  | some i => (i : Int)
  | none => -1

/-- Translate a Python slice endpoint into a list index:
negative values count from the end (clamped at 0), non-negative values
are clamped at the length. -/
def pyIndex (len : Nat) (i : Int) : Nat :=
  if i < 0 then (len + i).toNat else min i.toNat len

/-- Python `data[a:b]`. -/
def pySlice {α : Type} (data : List α) (a b : Int) : List α :=
  (data.take (pyIndex data.length b)).drop (pyIndex data.length a)

/-- Python `data[a:]`. -/
def pySliceFrom {α : Type} (data : List α) (a : Int) : List α :=
  data.drop (pyIndex data.length a)

/-- The scan behind Python `bytes.replace(pat, rep)`, with fuel (the list's
length: every replaced occurrence consumes at least one element). -/
def pyReplaceAux {α : Type} [DecidableEq α] (pat rep : List α) : Nat → List α → List α
  | _, [] => []
  | 0, l => l
  | fuel + 1, d :: ds =>
    if listStartsWith (d :: ds) pat ∧ 0 < pat.length then
      rep ++ pyReplaceAux pat rep fuel ((d :: ds).drop pat.length)
    else
      d :: pyReplaceAux pat rep fuel ds

/-- Python `bytes.replace(pat, rep)`: replace every non-overlapping
occurrence of `pat`, scanning left to right. -/
def pyReplace {α : Type} [DecidableEq α] (pat rep l : List α) : List α :=
  pyReplaceAux pat rep l.length l

/-- `os.linesep` on the POSIX platforms the capture loop targets. -/
def osLinesep : List Nat := strBytes "\n"

/-- `FileCapture._get_json_separators`: the version-dependent triple
(packet separator, end-of-file separator, characters to disregard).
The version test `self._get_tshark_version() >= LooseVersion("3.0.0")`
is an external lookup, modelled by the boolean `isV3OrLater`. -/
def getJsonSeparators (isV3OrLater : Bool) : List Nat × List Nat × Nat :=
  if isV3OrLater then
    (osLinesep ++ strBytes "  \x7d," ++ osLinesep,
     strBytes "\x7d" ++ osLinesep ++ strBytes "]",
     1 + osLinesep.length)
  else
    (strBytes "\x7d" ++ osLinesep ++ osLinesep ++ strBytes "  ,",
     strBytes "\x7d" ++ osLinesep ++ osLinesep ++ strBytes "]",
     1)

/-- `FileCapture._extract_packet_json_from_data`. -/
def extractPacketJsonFromData (isV3OrLater : Bool) (data : List Nat)
    (gotFirstPacket : Bool := true) : Option (List Nat) × List Nat :=
  let tagStart : Int := if gotFirstPacket then 0 else pyFind data (strBytes "\x7b")
  if ¬ gotFirstPacket ∧ tagStart = -1 then (none, data)
  else
    let seps := getJsonSeparators isV3OrLater
    let packetSeparator := seps.1
    let endSeparator := seps.2.1
    let endTagStripLength := seps.2.2
    let tagEndInit := pyFind data packetSeparator
    let foundSeparator : Option (List Nat) :=
      if tagEndInit = -1 then
        (if pyFind data endSeparator ≠ -1 then some endSeparator else none)
      else some packetSeparator
    let tagEndBase := if tagEndInit = -1 then pyFind data endSeparator else tagEndInit
    match foundSeparator with
    | some fsep =>
      let tagEnd := tagEndBase + (fsep.length : Int) - (endTagStripLength : Int)
      (some (pySlice data tagStart tagEnd), pySliceFrom data (tagEnd + 1))
    | none => (none, data)

/-- `FileCapture._extract_tag_from_data`. -/
def extractTagFromData (data : List Nat) (tagName : List Nat := strBytes "packet") :
    Option (List Nat) × List Nat :=
  let openingTag := strBytes "<" ++ tagName ++ strBytes ">"
  let closingTag := pyReplace (strBytes "<") (strBytes "</") openingTag
  let tagEndInit := pyFind data closingTag
  if tagEndInit ≠ -1 then
    let tagEnd := tagEndInit + (closingTag.length : Int)
    let tagStart := pyFind data openingTag
    (some (pySlice data tagStart tagEnd), pySliceFrom data tagEnd)
  else (none, data)

/-- The opening tag `b"<" + tag_name + b">"` built by `_extract_tag_from_data`. -/
def openingTagOf (tagName : List Nat) : List Nat := strBytes "<" ++ tagName ++ strBytes ">"

/-- The closing tag `b"</" + tag_name + b">"` that
`opening_tag.replace(b"<", b"</")` produces for a tag name free of `<`. -/
def closingTagOf (tagName : List Nat) : List Nat := strBytes "</" ++ tagName ++ strBytes ">"

/-- The post-3.0 packet separator `(os.linesep + "  }," + os.linesep)`. -/
def packetSepV3 : List Nat := (getJsonSeparators true).1

/-- The pre-3.0 packet separator `("}" + os.linesep * 2 + "  ,")`. -/
def packetSepPre3 : List Nat := (getJsonSeparators false).1

/-! ### Helper lemmas about the byte-level primitives -/

theorem listStartsWith_append_self {α : Type} [DecidableEq α] (a b : List α) :
    listStartsWith (a ++ b) a = true := by
  induction a with
  | nil => cases b <;> simp [listStartsWith]
  | cons x xs ih => simp [listStartsWith, ih]

theorem bytesFind_of_startsWith {α : Type} [DecidableEq α] {data pat : List α}
    (h : listStartsWith data pat = true) : bytesFind data pat = some 0 := by
  unfold bytesFind
  simp [h]

theorem take_append_len {α : Type} (a b : List α) (k : Nat) :
    (a ++ b).take (a.length + k) = a ++ b.take k := by
  induction a with
  | nil => simp
  | cons x xs ih => simp [List.take, ih, Nat.succ_add]

theorem drop_append_len {α : Type} (a b : List α) (k : Nat) :
    (a ++ b).drop (a.length + k) = b.drop k := by
  induction a with
  | nil => simp
  | cons x xs ih => simp [List.drop, ih, Nat.succ_add]

theorem pyReplaceAux_not_mem {α : Type} [DecidableEq α] {c : α} (rep : List α) :
    ∀ (fuel : Nat) (l : List α), c ∉ l → pyReplaceAux [c] rep fuel l = l := by
  intro fuel
  induction fuel with
  | zero =>
    intro l _
    cases l <;> rfl
  | succ f ih =>
    intro l h
    cases l with
    | nil => rfl
    | cons d ds =>
      have hdc : ¬ (d = c) := fun hd => h (hd ▸ List.mem_cons_self d ds)
      have hds : c ∉ ds := fun hm => h (List.mem_cons_of_mem d hm)
      conv_lhs => rw [pyReplaceAux]
      simp [listStartsWith, hdc, ih ds hds]

theorem pyReplace_not_mem {α : Type} [DecidableEq α] {c : α} (rep : List α) {l : List α}
    (h : c ∉ l) : pyReplace [c] rep l = l :=
  pyReplaceAux_not_mem rep l.length l h

theorem pyReplace_cons_hit {α : Type} [DecidableEq α] (c : α) (rep l : List α) :
    pyReplace [c] rep (c :: l) = rep ++ pyReplace [c] rep l := by
  show pyReplaceAux [c] rep (c :: l).length (c :: l) = rep ++ pyReplace [c] rep l
  rw [List.length_cons]
  conv_lhs => rw [pyReplaceAux]
  simp [listStartsWith, pyReplace]

theorem closingTag_eq {tagName : List Nat} (h : 60 ∉ tagName) :
    pyReplace (strBytes "<") (strBytes "</") (openingTagOf tagName) = closingTagOf tagName := by
  have h62 : (60 : Nat) ∉ tagName ++ [62] := by
    intro hm
    rcases List.mem_append.mp hm with hm | hm
    · exact h hm
    · simp at hm
  have : openingTagOf tagName = 60 :: (tagName ++ [62]) := by
    simp [openingTagOf, strBytes]
  rw [this]
  show pyReplace [60] [60, 47] (60 :: (tagName ++ [62])) = closingTagOf tagName
  rw [pyReplace_cons_hit, pyReplace_not_mem _ h62]
  simp [closingTagOf, strBytes]

theorem pyIndex_ofNat (len n : Nat) : pyIndex len (n : Int) = min n len := by
  simp [pyIndex]

theorem pySlice_zero_nat {α : Type} (data : List α) (m : Nat) :
    pySlice data 0 (m : Int) = data.take m := by
  have h0 : pyIndex data.length 0 = 0 := by simp [pyIndex]
  rw [pySlice, h0, pyIndex_ofNat, List.drop_zero]
  rcases le_total m data.length with h | h
  · simp [Nat.min_eq_left h]
  · simp [Nat.min_eq_right h, List.take_of_length_le h, List.take_of_length_le]

theorem pySliceFrom_nat {α : Type} (data : List α) (m : Nat) :
    pySliceFrom data (m : Int) = data.drop m := by
  rw [pySliceFrom, pyIndex_ofNat]
  rcases le_total m data.length with h | h
  · simp [Nat.min_eq_left h]
  · simp [Nat.min_eq_right h, List.drop_eq_nil_of_le h, List.drop_eq_nil_of_le]

/-- A complete tagged record at the head of the buffer is returned whole,
with exactly the trailing bytes as remainder. -/
theorem extractTag_complete (tagName body trailing : List Nat) (h60 : 60 ∉ tagName)
    (hfind : bytesFind (openingTagOf tagName ++ body ++ closingTagOf tagName ++ trailing)
        (closingTagOf tagName) = some (openingTagOf tagName ++ body).length) :
    extractTagFromData (openingTagOf tagName ++ body ++ closingTagOf tagName ++ trailing) tagName
      = (some (openingTagOf tagName ++ body ++ closingTagOf tagName), trailing) := by
  have e' : pyReplace (strBytes "<") (strBytes "</") (strBytes "<" ++ tagName ++ strBytes ">")
      = closingTagOf tagName := closingTag_eq h60
  have hfindP : pyFind (openingTagOf tagName ++ body ++ closingTagOf tagName ++ trailing)
      (closingTagOf tagName) = ((openingTagOf tagName ++ body).length : Int) := by
    unfold pyFind
    rw [hfind]
  have hsw : listStartsWith (openingTagOf tagName ++ body ++ closingTagOf tagName ++ trailing)
      (strBytes "<" ++ tagName ++ strBytes ">") = true := by
    have h := listStartsWith_append_self (α := Nat) (openingTagOf tagName)
        (body ++ (closingTagOf tagName ++ trailing))
    have hre : openingTagOf tagName ++ (body ++ (closingTagOf tagName ++ trailing))
        = openingTagOf tagName ++ body ++ closingTagOf tagName ++ trailing := by
      simp [List.append_assoc]
    rw [hre] at h
    exact h
  have hstart : pyFind (openingTagOf tagName ++ body ++ closingTagOf tagName ++ trailing)
      (strBytes "<" ++ tagName ++ strBytes ">") = ((0 : Nat) : Int) := by
    unfold pyFind
    rw [bytesFind_of_startsWith hsw]
  simp only [extractTagFromData]
  rw [e', hfindP, hstart]
  rw [if_pos (show ((openingTagOf tagName ++ body).length : Int) ≠ -1 by omega)]
  rw [show (((0 : Nat) : Int)) = (0 : Int) from rfl]
  rw [show ((openingTagOf tagName ++ body).length : Int) + ((closingTagOf tagName).length : Int)
      = (((openingTagOf tagName ++ body ++ closingTagOf tagName).length + 0 : Nat) : Int) by
    push_cast [List.length_append]
    ring]
  rw [pySlice_zero_nat, pySliceFrom_nat]
  rw [take_append_len (openingTagOf tagName ++ body ++ closingTagOf tagName) trailing 0]
  rw [drop_append_len (openingTagOf tagName ++ body ++ closingTagOf tagName) trailing 0]
  simp

/-- A complete pre-3.0 JSON record (through its packet separator) at the head
of the buffer: the returned span stops one byte short of the separator's end
and the remainder is exactly the trailing bytes. -/
theorem extractJson_complete_pre3 (body trailing : List Nat)
    (hfind : bytesFind (body ++ packetSepPre3 ++ trailing) packetSepPre3 = some body.length) :
    extractPacketJsonFromData false (body ++ packetSepPre3 ++ trailing) true
      = (some (body ++ packetSepPre3.take 5), trailing) := by
  have hfindP : pyFind (body ++ packetSepPre3 ++ trailing) packetSepPre3 = (body.length : Int) := by
    unfold pyFind
    rw [hfind]
  have hne : ¬ ((body.length : Int) = -1) := by omega
  simp only [extractPacketJsonFromData]
  rw [show (getJsonSeparators false).1 = packetSepPre3 from rfl]
  rw [show (getJsonSeparators false).2.2 = 1 from rfl]
  rw [hfindP]
  simp only [not_true, false_and, ite_false, ite_true, if_neg hne]
  rw [show ((packetSepPre3.length : Nat) : Int) = ((6 : Nat) : Int) by decide]
  rw [show (body.length : Int) + ((6 : Nat) : Int) - ((1 : Nat) : Int)
      = ((body.length + 5 : Nat) : Int) by push_cast; ring]
  rw [pySlice_zero_nat]
  rw [show ((body.length + 5 : Nat) : Int) + 1 = ((body.length + 6 : Nat) : Int) by push_cast; ring]
  rw [pySliceFrom_nat]
  rw [List.append_assoc]
  rw [take_append_len body (packetSepPre3 ++ trailing) 5,
     drop_append_len body (packetSepPre3 ++ trailing) 6]
  rw [List.take_append_eq_append_take, List.drop_append_eq_append_drop]
  simp [show packetSepPre3.length = 6 by decide]

/-- A complete post-3.0 JSON record at the head of the buffer: the remainder
is the trailing bytes with the separator's final `os.linesep` byte prepended,
not the trailing bytes alone. -/
theorem extractJson_complete_v3 (body trailing : List Nat)
    (hfind : bytesFind (body ++ packetSepV3 ++ trailing) packetSepV3 = some body.length) :
    extractPacketJsonFromData true (body ++ packetSepV3 ++ trailing) true
      = (some (body ++ packetSepV3.take 4), osLinesep ++ trailing) := by
  have hfindP : pyFind (body ++ packetSepV3 ++ trailing) packetSepV3 = (body.length : Int) := by
    unfold pyFind
    rw [hfind]
  have hne : ¬ ((body.length : Int) = -1) := by omega
  simp only [extractPacketJsonFromData]
  rw [show (getJsonSeparators true).1 = packetSepV3 from rfl]
  rw [show (getJsonSeparators true).2.2 = 2 from rfl]
  rw [hfindP]
  simp only [not_true, false_and, ite_false, ite_true, if_neg hne]
  rw [show ((packetSepV3.length : Nat) : Int) = ((6 : Nat) : Int) by decide]
  rw [show (body.length : Int) + ((6 : Nat) : Int) - ((2 : Nat) : Int)
      = ((body.length + 4 : Nat) : Int) by push_cast; ring]
  rw [pySlice_zero_nat]
  rw [show ((body.length + 4 : Nat) : Int) + 1 = ((body.length + 5 : Nat) : Int) by push_cast; ring]
  rw [pySliceFrom_nat]
  rw [List.append_assoc]
  rw [take_append_len body (packetSepV3 ++ trailing) 4,
     drop_append_len body (packetSepV3 ++ trailing) 5]
  rw [List.take_append_eq_append_take, List.drop_append_eq_append_drop]
  simp [show packetSepV3.length = 6 by decide]
  decide

/-- Without the closing tag in the buffer, the tagged extractor reports
"no record yet" and leaves the buffer unchanged. -/
theorem extractTag_noClosing (data tagName : List Nat) (h60 : 60 ∉ tagName)
    (h : bytesFind data (closingTagOf tagName) = none) :
    extractTagFromData data tagName = (none, data) := by
  have e' : pyReplace (strBytes "<") (strBytes "</") (strBytes "<" ++ tagName ++ strBytes ">")
      = closingTagOf tagName := closingTag_eq h60
  have hp : pyFind data (closingTagOf tagName) = -1 := by
    unfold pyFind
    rw [h]
  simp only [extractTagFromData]
  rw [e', hp]
  simp

/-- Without either JSON separator in the buffer, the JSON extractor reports
"no record yet" and leaves the buffer unchanged. -/
theorem extractJson_noSep (isV3 : Bool) (data : List Nat)
    (h1 : bytesFind data (getJsonSeparators isV3).1 = none)
    (h2 : bytesFind data (getJsonSeparators isV3).2.1 = none) :
    extractPacketJsonFromData isV3 data true = (none, data) := by
  have hp1 : pyFind data (getJsonSeparators isV3).1 = -1 := by
    unfold pyFind
    rw [h1]
  have hp2 : pyFind data (getJsonSeparators isV3).2.1 = -1 := by
    unfold pyFind
    rw [h2]
  simp only [extractPacketJsonFromData]
  rw [hp1, hp2]
  simp

/-! ### Claims C1 and C7: record-boundary extraction -/

/-- C1 (amended). A buffer holding exactly one complete record plus trailing
bytes: the tagged extractor returns the record and exactly the trailing bytes;
the pre-3.0 JSON extractor returns the record span (the separator minus its
one disregarded byte) and exactly the trailing bytes; the post-3.0 JSON
extractor returns the record span but its remainder keeps the separator's
final `os.linesep` byte in front of the trailing bytes. -/
theorem c1_one_record_plus_trailing_amended :
    (∀ tagName body trailing : List Nat, 60 ∉ tagName →
      bytesFind (openingTagOf tagName ++ body ++ closingTagOf tagName ++ trailing)
          (closingTagOf tagName) = some (openingTagOf tagName ++ body).length →
      extractTagFromData (openingTagOf tagName ++ body ++ closingTagOf tagName ++ trailing) tagName
        = (some (openingTagOf tagName ++ body ++ closingTagOf tagName), trailing)) ∧
    (∀ body trailing : List Nat,
      bytesFind (body ++ packetSepPre3 ++ trailing) packetSepPre3 = some body.length →
      extractPacketJsonFromData false (body ++ packetSepPre3 ++ trailing) true
        = (some (body ++ packetSepPre3.take 5), trailing)) ∧
    (∀ body trailing : List Nat,
      bytesFind (body ++ packetSepV3 ++ trailing) packetSepV3 = some body.length →
      extractPacketJsonFromData true (body ++ packetSepV3 ++ trailing) true
        = (some (body ++ packetSepV3.take 4), osLinesep ++ trailing)) :=
  ⟨extractTag_complete, extractJson_complete_pre3, extractJson_complete_v3⟩

/-- C1 witness: the amended statement applied to `<packet>A</packet>XY`
and to one-record JSON buffers under both separator conventions. -/
theorem c1_one_record_plus_trailing_amended_witness :
    extractTagFromData (openingTagOf (strBytes "packet") ++ strBytes "A" ++
        closingTagOf (strBytes "packet") ++ strBytes "XY") (strBytes "packet")
      = (some (openingTagOf (strBytes "packet") ++ strBytes "A" ++
          closingTagOf (strBytes "packet")), strBytes "XY") ∧
    extractPacketJsonFromData false (strBytes "\x7ba" ++ packetSepPre3 ++ strBytes "XY") true
      = (some (strBytes "\x7ba" ++ packetSepPre3.take 5), strBytes "XY") ∧
    extractPacketJsonFromData true (strBytes "\x7ba" ++ packetSepV3 ++ strBytes "XY") true
      = (some (strBytes "\x7ba" ++ packetSepV3.take 4), osLinesep ++ strBytes "XY") :=
  ⟨c1_one_record_plus_trailing_amended.1 _ _ _ (by decide) (by decide),
   c1_one_record_plus_trailing_amended.2.1 _ _ (by decide),
   c1_one_record_plus_trailing_amended.2.2 _ _ (by decide)⟩

/-- C1 counterexample: under the post-3.0 JSON separator convention, a buffer
of one complete record (body plus its full packet separator) followed by the
trailing bytes `XYZ` yields a remainder that is not exactly `XYZ` — a newline
from the separator is left in front of it. -/
theorem c1_post30_remainder_counterexample :
    (extractPacketJsonFromData true (strBytes "\x7ba" ++ packetSepV3 ++ strBytes "XYZ") true).2
      ≠ strBytes "XYZ" := by decide

/-- C7 (confirmed). On a buffer holding only a record prefix — no closing tag
in tagged mode, neither separator in JSON mode — both extractors return no
record and the buffer unchanged, and a repeated call on the resulting buffer
returns the same result. -/
theorem c7_prefix_only_idempotent :
    (∀ data tagName : List Nat, 60 ∉ tagName →
      bytesFind data (closingTagOf tagName) = none →
      extractTagFromData data tagName = (none, data) ∧
      extractTagFromData (extractTagFromData data tagName).2 tagName
        = extractTagFromData data tagName) ∧
    (∀ (isV3 : Bool) (data : List Nat),
      bytesFind data (getJsonSeparators isV3).1 = none →
      bytesFind data (getJsonSeparators isV3).2.1 = none →
      extractPacketJsonFromData isV3 data true = (none, data) ∧
      extractPacketJsonFromData isV3 (extractPacketJsonFromData isV3 data true).2 true
        = extractPacketJsonFromData isV3 data true) := by
  refine ⟨fun data tagName h60 h => ?_, fun isV3 data h1 h2 => ?_⟩
  · have h0 := extractTag_noClosing data tagName h60 h
    refine ⟨h0, ?_⟩
    rw [h0]
    exact h0
  · have h0 := extractJson_noSep isV3 data h1 h2
    refine ⟨h0, ?_⟩
    rw [h0]
    exact h0

/-- C7 witness: a tagged prefix `<packet>abc` and a JSON prefix with no
separator, under both conventions. -/
theorem c7_prefix_only_idempotent_witness :
    extractTagFromData (strBytes "<packet>abc") (strBytes "packet")
      = (none, strBytes "<packet>abc") ∧
    extractPacketJsonFromData false (strBytes "\x7b\x22a\x22:1") true
      = (none, strBytes "\x7b\x22a\x22:1") ∧
    extractPacketJsonFromData true (strBytes "\x7b\x22a\x22:1") true
      = (none, strBytes "\x7b\x22a\x22:1") :=
  ⟨(c7_prefix_only_idempotent.1 _ _ (by decide) (by decide)).1,
   (c7_prefix_only_idempotent.2 false _ (by decide) (by decide)).1,
   (c7_prefix_only_idempotent.2 true _ (by decide) (by decide)).1⟩

/-! ### The Python exceptions raised by the capture module -/

/-- The exceptions the capture code can raise: the module's own exception
classes plus the built-ins it uses (`StopIteration`, `KeyError`,
`NotImplementedError`, `FileNotFoundError`, `LookupError`,
`UnicodeDecodeError`, `EOFError`, and the bare `Exception` for an
unsupported custom-parameters type). -/
inductive PyErr where
  | stopIteration
  | keyError
  | notImplementedError
  | fileNotFoundError
  | rawMustUseJson
  | unknownEncryptionStandard
  | tsharkCrash (msg : String)
  | lookupError (encoding : String)
  | unicodeDecodeError
  | eofError
  | customParamsUnsupported
deriving DecidableEq

/-- Modelled from the spec: the RecordDecoder collaborator
(`packet_from_xml_packet`, which lives outside `src/`) is an opaque
transform from a record's raw bytes to a packet object. -/
structure PacketRec where
  raw : List Nat
deriving DecidableEq

/-- Modelled from the spec: `packet_from_xml_packet` as the opaque
bytes-to-packet transform (the psml-structure context does not change
which packet is produced in the claims verified here). -/
def packetFromXmlPacket (recordBytes : List Nat) : PacketRec := ⟨recordBytes⟩

/-! ### The session state: `_packets`, `_current_packet`, and the generator -/

/-- The mutable session state a `FileCapture` carries for iteration.
`stream` stands for the packets the generator `_packet_generator`
(`_packets_from_tshark_sync`) has yet to yield. -/
structure CaptureState where
  keepPackets : Bool
  packets : List PacketRec
  currentPacket : Nat
  stream : List PacketRec
deriving DecidableEq

/-- `self._packet_generator.send(None)`: yield the generator's next packet
or raise `StopIteration` when the stream is exhausted. -/
def genSend (s : CaptureState) : Except PyErr (PacketRec × CaptureState) :=
  match s.stream with
  | [] => .error .stopIteration
  | p :: rest => .ok (p, { s with stream := rest })

/-- `FileCapture.next_packet`. -/
def nextPacketOp (s : CaptureState) : Except PyErr (PacketRec × CaptureState) :=
  if s.currentPacket ≥ s.packets.length then .error .stopIteration
  else .ok (s.packets.getD s.currentPacket ⟨[]⟩,
            { s with currentPacket := s.currentPacket + 1 })

/-- `FileCapture.next`. -/
def nextOp (s : CaptureState) : Except PyErr (PacketRec × CaptureState) :=
  if ¬ s.keepPackets then genSend s
  else
    let step : Except PyErr CaptureState :=
      if s.currentPacket ≥ s.packets.length then
        match genSend s with
        | .error e => .error e
        | .ok (p, s1) => .ok { s1 with packets := s1.packets ++ [p] }
      else .ok s
    match step with
    | .error e => .error e
    | .ok s2 => nextPacketOp s2

/-- `FileCapture.clear`. -/
def clearOp (s : CaptureState) : CaptureState :=
  { s with packets := [], currentPacket := 0 }

/-- `FileCapture.reset`. -/
def resetOp (s : CaptureState) : CaptureState :=
  { s with currentPacket := 0 }

/-- The `while packet_index >= len(self._packets)` loop of
`FileCapture.__getitem__`, with explicit fuel (the Python loop terminates
because each round either lengthens `_packets`, advances the replay cursor,
or raises). -/
def getitemLoop (fuel : Nat) (packetIndex : Nat) (s : CaptureState) :
    Except PyErr (PacketRec × CaptureState) :=
  match fuel with
  | 0 => .error .keyError
  | fuel' + 1 =>
    if packetIndex ≥ s.packets.length then
      match nextOp s with
      | .error .stopIteration => .error .keyError
      | .error e => .error e
      | .ok (_, s1) => getitemLoop fuel' packetIndex s1
    else .ok (s.packets.getD packetIndex ⟨[]⟩, s)

/-- `FileCapture.__getitem__`: refuses immediately when packets are not
kept, otherwise pulls forward until the index exists or the stream ends. -/
def getitemOp (packetIndex : Nat) (s : CaptureState) :
    Except PyErr (PacketRec × CaptureState) :=
  if ¬ s.keepPackets then .error .notImplementedError
  else getitemLoop (s.stream.length + s.packets.length + packetIndex + 1) packetIndex s

/-- The drain loop behind `FileCapture.load_packets`: its `keep_packet`
callback appends each delivered packet to `self._packets` unconditionally
and raises `StopCapture` once `packet_count` new packets have been added
(`packet_count = 0` reads to the end). Returns the new `_packets` and the
unconsumed stream. -/
def loadLoop (initialPacketAmount packetCount : Nat) (packets : List PacketRec) :
    List PacketRec → List PacketRec × List PacketRec
  | [] => (packets, [])
  | p :: rest =>
    let packets1 := packets ++ [p]
    if packetCount ≠ 0 ∧ packets1.length - initialPacketAmount ≥ packetCount then
      (packets1, rest)
    else loadLoop initialPacketAmount packetCount packets1 rest

/-- `FileCapture.load_packets` (the timeout path is not modelled; the
claims here concern its effect on `_packets`). -/
def loadPacketsOp (packetCount : Nat) (s : CaptureState) : CaptureState :=
  let r := loadLoop s.packets.length packetCount s.packets s.stream
  { s with packets := r.1, stream := r.2 }

/-- The operations C2 quantifies over. -/
inductive CapOp where
  | opNext
  | opClear
  | opReset
  | opGetitem (i : Nat)

/-- Run one operation, keeping the session state it leaves behind
(a raising operation leaves the state it had raised from). -/
def applyOp (s : CaptureState) : CapOp → CaptureState
  | .opNext =>
    match nextOp s with
    | .ok (_, s1) => s1
    | .error _ => s
  | .opClear => clearOp s
  | .opReset => resetOp s
  | .opGetitem i =>
    match getitemOp i s with
    | .ok (_, s1) => s1
    | .error _ => s

/-- Run a sequence of operations. -/
def runOps (ops : List CapOp) (s : CaptureState) : CaptureState :=
  ops.foldl applyOp s

/-! ### Claim C2: the keep_packets=False invariant -/

theorem applyOp_keeps_empty (s : CaptureState) (op : CapOp)
    (hk : s.keepPackets = false) (hp : s.packets = []) :
    (applyOp s op).keepPackets = false ∧ (applyOp s op).packets = [] := by
  cases op with
  | opNext =>
    simp only [applyOp, nextOp, hk, Bool.false_eq_true, not_false_eq_true, if_true, genSend]
    cases s.stream with
    | nil => simp [hk, hp]
    | cons p rest => simp [hk, hp]
  | opClear => exact ⟨hk, rfl⟩
  | opReset => exact ⟨hk, hp⟩
  | opGetitem i =>
    simp only [applyOp, getitemOp, hk, Bool.false_eq_true, not_false_eq_true, if_true]
    simp [hk, hp]

theorem runOps_keeps_empty (ops : List CapOp) :
    ∀ s : CaptureState, s.keepPackets = false → s.packets = [] →
      (runOps ops s).keepPackets = false ∧ (runOps ops s).packets = [] := by
  induction ops with
  | nil => exact fun s hk hp => ⟨hk, hp⟩
  | cons op ops ih =>
    intro s hk hp
    have h := applyOp_keeps_empty s op hk hp
    exact ih (applyOp s op) h.1 h.2

/-- C2 (amended). With `keep_packets = False`, the internal packet sequence
stays empty across every sequence of `next`, `clear`, `reset` and
`__getitem__` calls, and `__getitem__` raises `NotImplementedError` instead
of returning a packet. (`load_packets` is excluded: its callback appends to
`_packets` regardless of `keep_packets` — see the counterexample.) -/
theorem c2_keep_packets_false_amended :
    (∀ (ops : List CapOp) (s : CaptureState), s.keepPackets = false → s.packets = [] →
      (runOps ops s).packets = []) ∧
    (∀ (i : Nat) (s : CaptureState), s.keepPackets = false →
      getitemOp i s = .error .notImplementedError) := by
  constructor
  · exact fun ops s hk hp => (runOps_keeps_empty ops s hk hp).2
  · intro i s hk
    simp [getitemOp, hk]

/-- C2 witness: a concrete `keep_packets = False` session run through
`next`, `reset`, `clear` and an indexed access. -/
theorem c2_keep_packets_false_amended_witness :
    (runOps [CapOp.opNext, CapOp.opReset, CapOp.opGetitem 0, CapOp.opClear]
      { keepPackets := false, packets := [], currentPacket := 0,
        stream := [⟨[1]⟩, ⟨[2]⟩] }).packets = [] ∧
    getitemOp 0 { keepPackets := false, packets := [], currentPacket := 0,
                  stream := [⟨[1]⟩, ⟨[2]⟩] } = .error .notImplementedError :=
  ⟨c2_keep_packets_false_amended.1 _ _ rfl rfl,
   c2_keep_packets_false_amended.2 0 _ rfl⟩

/-- C2 counterexample: `load_packets` on a `keep_packets = False` session
whose stream holds one packet leaves `_packets` non-empty, refuting
"the packet sequence is empty after every sequence of operations
(next, load_packets, clear, reset)". -/
theorem c2_load_packets_counterexample :
    (loadPacketsOp 0 { keepPackets := false, packets := [], currentPacket := 0,
                       stream := [⟨[1]⟩] }).packets ≠ [] := by decide

/-! ### The process supervisor: spawn registration and cleanup -/

/-- What happens when `process.kill()` is followed by
`asyncio.wait_for(process.wait(), 1)`: the normal case is a reaped exit;
a `TimeoutError` or `ProcessLookupError` is swallowed by the source. -/
inductive KillOutcome where
  | exits
  | timesOut
  | alreadyReaped
deriving DecidableEq

/-- One tshark subprocess handle: `returncode` is `none` while the process
still runs (Python's `process.returncode is None`). -/
structure ProcHandle where
  pid : Nat
  returncode : Option Int
  killOutcome : KillOutcome
deriving DecidableEq

/-- The message of the `TSharkCrashException` raised by
`_created_new_process`: `"%s seems to have crashed. Try updating it.
(command ran: '%s')" % (process_name, " ".join(parameters))`. -/
def spawnCrashMsg (processName : String) (parameters : List String) : String :=
  processName ++ " seems to have crashed. Try updating it. (command ran: '" ++
    String.intercalate " " parameters ++ "')"

/-- The message of the `TSharkCrashException` raised by
`_cleanup_subprocess` for a positive exit status. -/
def cleanupCrashMsg (rc : Int) : String :=
  "TShark seems to have crashed (retcode: " ++ toString rc ++
    "). Try rerunning in debug mode [ capture_obj.set_debug() ] or try updating tshark."

/-- `FileCapture._created_new_process`: raises on an already-exited
process with non-zero status, otherwise registers the handle in
`_running_processes`. -/
def createdNewProcess (parameters : List String) (process : ProcHandle)
    (runningProcesses : List ProcHandle) : Except PyErr (List ProcHandle) :=
  match process.returncode with
  | some rc =>
    if rc ≠ 0 then .error (.tsharkCrash (spawnCrashMsg "TShark" parameters))
    else .ok (process :: runningProcesses)
  | none => .ok (process :: runningProcesses)

/-- `FileCapture._cleanup_subprocess`: kills a still-running process
(swallowing wait timeouts and lookups of an already-reaped process), and
raises `TSharkCrashException` when the process already exited with a
positive status. -/
def cleanupSubprocess (process : ProcHandle) : Except PyErr ProcHandle :=
  match process.returncode with
  | none =>
    match process.killOutcome with
    | .exits => .ok { process with returncode := some (-9) }
    | .timesOut => .ok process
    | .alreadyReaped => .ok process
  | some rc =>
    if rc > 0 then .error (.tsharkCrash (cleanupCrashMsg rc))
    else .ok process

/-- The `for process in self._running_processes.copy()` loop of
`close_async`: clean up each handle in turn; an exception aborts the loop
(and the set is then never cleared). Returns the reaped handles. -/
def cleanupAll : List ProcHandle → Except PyErr (List ProcHandle)
  | [] => .ok []
  | p :: rest =>
    match cleanupSubprocess p with
    | .error e => .error e
    | .ok p1 =>
      match cleanupAll rest with
      | .error e => .error e
      | .ok rest1 => .ok (p1 :: rest1)

/-- `FileCapture.close_async`: clean up every live handle, then clear the
set. On success the new `_running_processes` is empty; an exception leaves
the set as it was. -/
def closeAsync (runningProcesses : List ProcHandle) : Except PyErr (List ProcHandle) :=
  match cleanupAll runningProcesses with
  | .ok _ => .ok []
  | .error e => .error e

theorem cleanupAll_all_live (procs : List ProcHandle)
    (h : ∀ p ∈ procs, (p.returncode = none ∧ p.killOutcome = .exits) ∨ p.returncode = some 0) :
    ∃ reaped, cleanupAll procs = .ok reaped ∧ ∀ q ∈ reaped, q.returncode ≠ none := by
  induction procs with
  | nil => exact ⟨[], rfl, by simp⟩
  | cons p rest ih =>
    obtain ⟨reaped, hr, hq⟩ := ih (fun q hq => h q (List.mem_cons_of_mem p hq))
    rcases h p (List.mem_cons_self p rest) with ⟨h1, h2⟩ | h1
    · refine ⟨{ p with returncode := some (-9) } :: reaped, ?_, ?_⟩
      · simp only [cleanupAll, cleanupSubprocess, h1, h2, hr]
      · intro q hqm
        rcases List.mem_cons.mp hqm with hq1 | hq1
        · rw [hq1]
          simp
        · exact hq q hq1
    · refine ⟨p :: reaped, ?_, ?_⟩
      · simp only [cleanupAll, cleanupSubprocess, h1, hr]
        norm_num
      · intro q hqm
        rcases List.mem_cons.mp hqm with hq1 | hq1
        · rw [hq1, h1]
          simp
        · exact hq q hq1

theorem closeAsync_all_live (procs : List ProcHandle)
    (h : ∀ p ∈ procs, (p.returncode = none ∧ p.killOutcome = .exits) ∨ p.returncode = some 0) :
    closeAsync procs = .ok [] := by
  obtain ⟨reaped, hr, _⟩ := cleanupAll_all_live procs h
  simp [closeAsync, hr]

/-! ### Claim C5: close_async terminates, clears, is idempotent -/

/-- C5 (amended). When every handle in the live set is either still running
(and reapable) or already exited with status 0, `close_async` terminates and
reaps every handle, returns with the live set empty, and a second call on
the now-empty set is a no-op; but a handle that already exited with a
positive status makes `close_async` raise `TSharkCrashException` instead
(see the counterexample), so it is not unconditionally raise-free. -/
theorem c5_close_async_amended :
    (∀ procs : List ProcHandle,
      (∀ p ∈ procs, (p.returncode = none ∧ p.killOutcome = .exits) ∨ p.returncode = some 0) →
      closeAsync procs = .ok [] ∧
      ∃ reaped, cleanupAll procs = .ok reaped ∧ ∀ q ∈ reaped, q.returncode ≠ none) ∧
    closeAsync ([] : List ProcHandle) = .ok [] := by
  constructor
  · exact fun procs h => ⟨closeAsync_all_live procs h, cleanupAll_all_live procs h⟩
  · rfl

/-- C5 witness: one running handle and one handle that exited cleanly. -/
theorem c5_close_async_amended_witness :
    closeAsync [{ pid := 0, returncode := none, killOutcome := .exits },
                { pid := 1, returncode := some 0, killOutcome := .exits }] = .ok [] ∧
    closeAsync ([] : List ProcHandle) = .ok [] :=
  ⟨(c5_close_async_amended.1 _ (by decide)).1, c5_close_async_amended.2⟩

/-- C5 counterexample: a handle that already exited with status 2 makes
`close_async` raise `TSharkCrashException` (and the live set is not
cleared), refuting "safe to call — it does not raise — even when some
handles in the set have already exited". -/
theorem c5_positive_exit_counterexample :
    closeAsync [{ pid := 7, returncode := some 2, killOutcome := .exits }]
      = .error (.tsharkCrash (cleanupCrashMsg 2)) := rfl

/-! ### Claim C6: what the crash exceptions report -/

/-- Python `needle in hay` on strings. -/
def strContains (hay needle : String) : Bool :=
  (bytesFind hay.data needle.data).isSome

theorem bytesFind_append_isSome {α : Type} [DecidableEq α] (pre pat post : List α) :
    (bytesFind (pre ++ pat ++ post) pat).isSome = true := by
  induction pre with
  | nil =>
    rw [show ([] ++ pat ++ post : List α) = pat ++ post by simp]
    rw [bytesFind_of_startsWith (listStartsWith_append_self pat post)]
    rfl
  | cons x xs ih =>
    simp only [List.cons_append]
    unfold bytesFind
    by_cases hsw : listStartsWith (x :: (xs ++ pat ++ post)) pat = true
    · rw [if_pos hsw]
      rfl
    · rw [if_neg hsw]
      rcases hfind : bytesFind (xs ++ pat ++ post) pat with _ | i
      · rw [hfind] at ih
        simp at ih
      · change (Option.map (fun x => x + 1) (bytesFind (xs ++ pat ++ post) pat)).isSome = true
        rw [hfind]
        rfl

theorem strContains_sandwich (a mid b : String) :
    strContains (a ++ mid ++ b) mid = true := by
  rw [strContains, String.data_append, String.data_append]
  exact bytesFind_append_isSome a.data mid.data b.data

/-- C6 (amended). A spawn-time crash (`_created_new_process`, non-zero exit
right after spawn) reports the exact invocation in its message, and a
cleanup-time crash (`_cleanup_subprocess`, positive exit status) reports the
exit code in its message — but neither message carries both pieces, so each
crash error reports exactly one of the two (see the counterexample). -/
theorem c6_crash_reporting_amended :
    (∀ (parameters : List String) (p : ProcHandle) (procs : List ProcHandle) (rc : Int),
      p.returncode = some rc → rc ≠ 0 →
      createdNewProcess parameters p procs
          = .error (.tsharkCrash (spawnCrashMsg "TShark" parameters)) ∧
      strContains (spawnCrashMsg "TShark" parameters)
          (String.intercalate " " parameters) = true) ∧
    (∀ (p : ProcHandle) (rc : Int), p.returncode = some rc → 0 < rc →
      cleanupSubprocess p = .error (.tsharkCrash (cleanupCrashMsg rc)) ∧
      strContains (cleanupCrashMsg rc) (toString rc) = true) := by
  constructor
  · intro parameters p procs rc hrc hne
    refine ⟨?_, ?_⟩
    · simp [createdNewProcess, hrc, hne]
    · have h := strContains_sandwich
        ("TShark" ++ " seems to have crashed. Try updating it. (command ran: '")
        (String.intercalate " " parameters) "')"
      rw [show "TShark" ++ " seems to have crashed. Try updating it. (command ran: '" ++
          String.intercalate " " parameters ++ "')" = spawnCrashMsg "TShark" parameters by
        rw [spawnCrashMsg]] at h
      exact h
  · intro p rc hrc hpos
    refine ⟨?_, ?_⟩
    · simp [cleanupSubprocess, hrc, hpos]
    · have h := strContains_sandwich "TShark seems to have crashed (retcode: " (toString rc)
        "). Try rerunning in debug mode [ capture_obj.set_debug() ] or try updating tshark."
      rw [show "TShark seems to have crashed (retcode: " ++ toString rc ++
          "). Try rerunning in debug mode [ capture_obj.set_debug() ] or try updating tshark."
          = cleanupCrashMsg rc by rw [cleanupCrashMsg]] at h
      exact h

/-- C6 witness: the amended statement at a concrete spawn failure (exit 2,
invocation `tshark -l`) and a concrete cleanup failure (exit 3). -/
theorem c6_crash_reporting_amended_witness :
    createdNewProcess ["tshark", "-l"] { pid := 0, returncode := some 2, killOutcome := .exits } []
        = .error (.tsharkCrash (spawnCrashMsg "TShark" ["tshark", "-l"])) ∧
    strContains (spawnCrashMsg "TShark" ["tshark", "-l"])
        (String.intercalate " " ["tshark", "-l"]) = true ∧
    cleanupSubprocess { pid := 1, returncode := some 3, killOutcome := .exits }
        = .error (.tsharkCrash (cleanupCrashMsg 3)) ∧
    strContains (cleanupCrashMsg 3) (toString (3 : Int)) = true :=
  ⟨(c6_crash_reporting_amended.1 ["tshark", "-l"]
      { pid := 0, returncode := some 2, killOutcome := .exits } [] 2 rfl (by decide)).1,
   (c6_crash_reporting_amended.1 ["tshark", "-l"]
      { pid := 0, returncode := some 2, killOutcome := .exits } [] 2 rfl (by decide)).2,
   (c6_crash_reporting_amended.2
      { pid := 1, returncode := some 3, killOutcome := .exits } 3 rfl (by decide)).1,
   (c6_crash_reporting_amended.2
      { pid := 1, returncode := some 3, killOutcome := .exits } 3 rfl (by decide)).2⟩

/-- C6 counterexample: the crash raised right after spawn for exit status 2
with invocation `tshark` does not mention the exit code anywhere in its
message, refuting "every crash error reports both the exact invocation and
the process exit code". -/
theorem c6_spawn_crash_no_exit_code_counterexample :
    createdNewProcess ["tshark"] { pid := 0, returncode := some 2, killOutcome := .exits } []
        = .error (.tsharkCrash (spawnCrashMsg "TShark" ["tshark"])) ∧
    strContains (spawnCrashMsg "TShark" ["tshark"]) (toString (2 : Int)) = false := by
  constructor
  · rfl
  · decide

/-! ### Claim C4: StopCapture from the push-all callback -/

/-- Outcome of one `packet_callback(packet)` call: a normal return or a
raised `StopCapture`. -/
inductive CbOutcome where
  | ok
  | stop
deriving DecidableEq

/-- Python truthiness of the optional `packet_count` argument
(`None` and `0` are falsy). -/
def natTruthy : Option Nat → Bool
  | none => false
  | some n => n ≠ 0

/-- The record loop of `_go_through_packets_from_fd`: per packet, increment
`packets_captured`, invoke the callback (`cb n` is the outcome of the
callback's n-th invocation, counting from 0), break on `StopCapture`
(caught right there), then break if `packet_count` is reached; the end of
the stream is the `EOFError` break. Returns the packets the callback was
invoked on, in order. -/
def goThroughLoop (cb : Nat → CbOutcome) (packetCount : Option Nat) :
    List PacketRec → Nat → List PacketRec
  | [], _ => []
  | p :: rest, packetsCaptured =>
    match cb packetsCaptured with
    | .stop => [p]
    | .ok =>
      if natTruthy packetCount ∧ packetsCaptured + 1 ≥ packetCount.getD 0 then [p]
      else p :: goThroughLoop cb packetCount rest (packetsCaptured + 1)

/-- `_go_through_packets_from_fd` over a stream of extracted records
(`only_summaries` off, so `_get_psml_struct` returns no structure). -/
def goThroughPacketsFromFd (cb : Nat → CbOutcome) (packetCount : Option Nat)
    (stream : List PacketRec) : List PacketRec :=
  goThroughLoop cb packetCount stream 0

/-- `packets_from_tshark` with `close_tshark=True`: spawn and register the
process, drive `_go_through_packets_from_fd` (whose callback loop catches
`StopCapture` itself, so the surrounding `except StopCapture: pass` arm is
never reached), and in the `finally` block run `close_async`. Returns the
callback-delivered packets (or the exception) together with the final
`_running_processes`. -/
def packetsFromTsharkM (cb : Nat → CbOutcome) (packetCount : Option Nat)
    (stream : List PacketRec) (parameters : List String)
    (spawned : ProcHandle) (procs : List ProcHandle) :
    Except PyErr (List PacketRec) × List ProcHandle :=
  match createdNewProcess parameters spawned procs with
  | .error e => (.error e, procs)
  | .ok procs1 =>
    let invoked := goThroughPacketsFromFd cb packetCount stream
    match closeAsync procs1 with
    | .ok cleared => (.ok invoked, cleared)
    | .error e => (.error e, procs1)

theorem goThroughLoop_stop (cb : Nat → CbOutcome) :
    ∀ (k c : Nat) (stream : List PacketRec),
      cb (c + k) = .stop → (∀ j, j < k → cb (c + j) = .ok) → k < stream.length →
      goThroughLoop cb none stream c = stream.take (k + 1) := by
  intro k
  induction k with
  | zero =>
    intro c stream hstop _ hk
    cases stream with
    | nil => simp at hk
    | cons p rest =>
      rw [Nat.add_zero] at hstop
      simp [goThroughLoop, hstop]
  | succ k ih =>
    intro c stream hstop hok hk
    cases stream with
    | nil => simp at hk
    | cons p rest =>
      have h0 : cb c = .ok := by
        have := hok 0 (Nat.succ_pos k)
        rwa [Nat.add_zero] at this
      have htail : goThroughLoop cb none rest (c + 1) = rest.take (k + 1) := by
        refine ih (c + 1) rest ?_ ?_ ?_
        · rw [show c + 1 + k = c + (k + 1) by omega]
          exact hstop
        · intro j hj
          rw [show c + 1 + j = c + (j + 1) by omega]
          exact hok (j + 1) (Nat.succ_lt_succ hj)
        · exact Nat.lt_of_succ_lt_succ hk
      simp [goThroughLoop, h0, natTruthy, htail]

/-- C4 (confirmed). When the push-all callback raises `StopCapture` on its
(k+1)-st invocation, the engine invokes the callback on exactly the first
k+1 records and no more, `packets_from_tshark` returns normally (the stop
is not propagated as an error), and the live process set is cleaned up to
empty — exactly as on a normal drain of the same stream. -/
theorem c4_stop_capture_clean_stop (cb : Nat → CbOutcome) (stream : List PacketRec)
    (parameters : List String) (spawned : ProcHandle) (procs : List ProcHandle) (k : Nat)
    (hstop : cb k = .stop) (hok : ∀ j, j < k → cb j = .ok) (hk : k < stream.length)
    (hspawn : spawned.returncode = none)
    (hlive : ∀ p ∈ procs, p.returncode = none ∧ p.killOutcome = .exits)
    (hkill : spawned.killOutcome = .exits) :
    packetsFromTsharkM cb none stream parameters spawned procs
      = (.ok (stream.take (k + 1)), []) ∧
    (packetsFromTsharkM (fun _ => .ok) none stream parameters spawned procs).2 = [] := by
  have hclose : closeAsync (spawned :: procs) = .ok [] := by
    refine closeAsync_all_live _ (fun p hp => ?_)
    rcases List.mem_cons.mp hp with h | h
    · exact Or.inl ⟨h ▸ hspawn, h ▸ hkill⟩
    · exact Or.inl (hlive p h)
  have hreg : createdNewProcess parameters spawned procs = .ok (spawned :: procs) := by
    simp [createdNewProcess, hspawn]
  have hloop : goThroughPacketsFromFd cb none stream = stream.take (k + 1) := by
    rw [goThroughPacketsFromFd]
    have := goThroughLoop_stop cb k 0 stream
    rw [Nat.zero_add] at this
    exact this hstop (fun j hj => by
      have := hok j hj
      rwa [Nat.zero_add]) hk
  constructor
  · rw [packetsFromTsharkM, hreg]
    simp [hclose, hloop]
  · rw [packetsFromTsharkM, hreg]
    simp [hclose]

/-- C4 witness: a three-record stream whose callback stops on its second
invocation — exactly two records are delivered, the result is a normal
return, and the process set ends empty, as on the full drain. -/
theorem c4_stop_capture_clean_stop_witness :
    packetsFromTsharkM (fun n => if n = 1 then .stop else .ok) none
        [⟨[1]⟩, ⟨[2]⟩, ⟨[3]⟩] ["tshark"]
        { pid := 0, returncode := none, killOutcome := .exits } []
      = (.ok [⟨[1]⟩, ⟨[2]⟩], []) ∧
    (packetsFromTsharkM (fun _ => .ok) none [⟨[1]⟩, ⟨[2]⟩, ⟨[3]⟩] ["tshark"]
        { pid := 0, returncode := none, killOutcome := .exits } []).2 = [] :=
  c4_stop_capture_clean_stop (fun n => if n = 1 then .stop else .ok)
    [⟨[1]⟩, ⟨[2]⟩, ⟨[3]⟩] ["tshark"]
    { pid := 0, returncode := none, killOutcome := .exits } [] 1
    (by decide) (by decide) (by decide) rfl (by simp) rfl

/-! ### Claim C3: undecodable bytes inside a well-bounded tagged record -/

/-- `lo ≤ b ≤ hi`, as a boolean. -/
def inRange (lo hi b : Nat) : Bool := decide (lo ≤ b ∧ b ≤ hi)

/-- A UTF-8 continuation byte (`0x80–0xBF`). -/
def contByte (b : Nat) : Bool := inRange 128 191 b

/-- Length of the valid UTF-8 sequence starting at the head of the list,
or `none` (per RFC 3629: no overlongs, no surrogates, max U+10FFFF) —
the encoding Python's strict `bytes.decode('UTF-8')` accepts. -/
def utf8SeqLen : List Nat → Option Nat
  | [] => none
  | b :: rest =>
    if b ≤ 127 then some 1
    else if inRange 194 223 b then
      match rest with
      | c1 :: _ => if contByte c1 then some 2 else none
      | [] => none
    else if b = 224 then
      match rest with
      | c1 :: c2 :: _ => if inRange 160 191 c1 ∧ contByte c2 then some 3 else none
      | _ => none
    else if inRange 225 236 b ∨ b = 238 ∨ b = 239 then
      match rest with
      | c1 :: c2 :: _ => if contByte c1 ∧ contByte c2 then some 3 else none
      | _ => none
    else if b = 237 then
      match rest with
      | c1 :: c2 :: _ => if inRange 128 159 c1 ∧ contByte c2 then some 3 else none
      | _ => none
    else if b = 240 then
      match rest with
      | c1 :: c2 :: c3 :: _ => if inRange 144 191 c1 ∧ contByte c2 ∧ contByte c3 then some 4 else none
      | _ => none
    else if inRange 241 243 b then
      match rest with
      | c1 :: c2 :: c3 :: _ => if contByte c1 ∧ contByte c2 ∧ contByte c3 then some 4 else none
      | _ => none
    else if b = 244 then
      match rest with
      | c1 :: c2 :: c3 :: _ => if inRange 128 143 c1 ∧ contByte c2 ∧ contByte c3 then some 4 else none
      | _ => none
    else none

/-- Is the whole byte list valid UTF-8? (Fuel is the list length; every
valid sequence consumes at least one byte.) -/
def utf8ValidAux : Nat → List Nat → Bool
  | _, [] => true
  | 0, _ :: _ => false
  | fuel + 1, l =>
    match utf8SeqLen l with
    | some n => utf8ValidAux fuel (l.drop n)
    | none => false

def utf8Valid (l : List Nat) : Bool := utf8ValidAux l.length l

/-- `bytes.decode('...', 'ignore')`'s effect on the byte level: drop the
bytes that do not start a valid sequence. -/
def utf8IgnoreAux : Nat → List Nat → List Nat
  | _, [] => []
  | 0, _ :: _ => []
  | fuel + 1, b :: rest =>
    match utf8SeqLen (b :: rest) with
    | some n => (b :: rest).take n ++ utf8IgnoreAux fuel ((b :: rest).drop n)
    | none => utf8IgnoreAux fuel rest

def utf8Ignore (l : List Nat) : List Nat := utf8IgnoreAux l.length l

/-- Python's codec registry, restricted to the names this module passes
to `bytes.decode`. `codecs.lookup` first normalizes the name
(runs of non-alphanumeric characters collapse, so `'UTF-'` normalizes to
`'UTF'`) and lower-cases it, and `'utf'` is a registered alias of `utf_8`
in `encodings/aliases.py` — hence both `'UTF-8'` and the `'UTF-'`
spelling used in the fallback decode resolve to the utf-8 codec. -/
def codecLookup (encoding : String) : Bool :=
  encoding = "UTF-8" ∨ encoding = "utf-8" ∨ encoding = "UTF-" ∨ encoding = "utf"

/-- `data.decode(encoding, errors)` at the byte level: unknown codec names
raise `LookupError` regardless of the error handler; otherwise strict
decoding fails on invalid UTF-8 with `UnicodeDecodeError` unless
`errors='ignore'` drops the offending bytes. The decoded text is
represented by its UTF-8 bytes (so a following `.encode()` is the
identity). -/
def pyDecode (data : List Nat) (encoding errors : String) : Except PyErr (List Nat) :=
  if ¬ codecLookup encoding then .error (.lookupError encoding)
  else if utf8Valid data then .ok data
  else if errors = "ignore" then .ok (utf8Ignore data)
  else .error .unicodeDecodeError

/-- `FileCapture._get_packet_from_stream`, with the single
`stream.read(...)` result passed in as `newData`. In non-JSON mode the
extracted record is first decoded as `'UTF-8'` for the debug log; on
`UnicodeDecodeError` the source retries with `packet.decode('UTF-', 'ignore')`
and re-encodes before handing the record to `packet_from_xml_packet`. -/
def getPacketFromStream (useJson isV3 : Bool) (existingData newData : List Nat)
    (gotFirstPacket : Bool) : Except PyErr (Option PacketRec × List Nat) :=
  let res := if useJson then extractPacketJsonFromData isV3 existingData gotFirstPacket
             else extractTagFromData existingData
  match res with
  | (some packet, existingData1) =>
    if useJson then .ok (some ⟨packet⟩, existingData1)
    else
      match pyDecode packet "UTF-8" "strict" with
      | .ok _ => .ok (some (packetFromXmlPacket packet), existingData1)
      | .error .unicodeDecodeError =>
        match pyDecode packet "UTF-" "ignore" with
        | .ok cleaned => .ok (some (packetFromXmlPacket cleaned), existingData1)
        | .error e => .error e
      | .error e => .error e
  | (none, existingData1) =>
    let existingData2 := existingData1 ++ newData
    if newData = [] then .error .eofError
    else .ok (none, existingData2)

/-- C3 (confirmed). Whenever the tagged extractor finds a complete,
well-bounded record whose bytes are not valid UTF-8,
`_get_packet_from_stream` does not raise and does not terminate the
stream: the strict debug-log decode fails with `UnicodeDecodeError`, the
fallback `packet.decode('UTF-', 'ignore')` (whose codec name resolves to
utf-8) drops the undecodable bytes, and the cleaned record is still
handed to the decoder, producing a packet. -/
theorem c3_invalid_utf8_degrades_gracefully (isV3 : Bool)
    (existingData newData packet rest : List Nat)
    (hex : extractTagFromData existingData = (some packet, rest))
    (hinvalid : utf8Valid packet = false) :
    getPacketFromStream false isV3 existingData newData true
      = .ok (some (packetFromXmlPacket (utf8Ignore packet)), rest) := by
  simp only [getPacketFromStream, if_false, Bool.false_eq_true, ite_false, hex]
  simp [pyDecode, codecLookup, hinvalid]

/-- C3 witness: the record `<packet>ÿ</packet>` (with the invalid byte
`0xFF`) yields a packet whose bytes are the record minus that byte, and
the empty remainder — no exception. -/
theorem c3_invalid_utf8_degrades_gracefully_witness :
    getPacketFromStream false false (strBytes "<packet>" ++ [255] ++ strBytes "</packet>")
        [] true
      = .ok (some (packetFromXmlPacket (strBytes "<packet></packet>")), []) := by
  have h := c3_invalid_utf8_degrades_gracefully false
    (strBytes "<packet>" ++ [255] ++ strBytes "</packet>") []
    (strBytes "<packet>" ++ [255] ++ strBytes "</packet>") []
    (by decide) (by decide)
  rw [show utf8Ignore (strBytes "<packet>" ++ [255] ++ strBytes "</packet>")
      = strBytes "<packet></packet>" by decide] at h
  exact h

/-! ### Claims C8 and C10: construction-time validation -/

/-- Python truthiness of an optional string (`None` and `""` are falsy). -/
def strTruthy : Option String → Bool
  | none => false
  | some s => s ≠ ""

/-- Python `str.lower()` (the encryption-standard names are ASCII). -/
def pyLower (s : String) : String := ⟨s.data.map Char.toLower⟩

/-- `FileCapture.SUPPORTED_ENCRYPTION_STANDARDS`. -/
def SUPPORTED_ENCRYPTION_STANDARDS : List String := ["wep", "wpa-pwk", "wpa-pwd", "wpa-psk"]

/-- The constructor arguments `FileCapture.__init__` validates.
`inputFileExists` stands for the external `os.path.exists(input_file)`
check on the (string) path. -/
structure InitConfig where
  inputFileExists : Bool
  keepPackets : Bool
  useJson : Bool
  includeRaw : Bool
  decryptionKey : Option String
  encryptionType : Option String
deriving DecidableEq

/-- The session state `__init__` leaves behind on success. -/
structure InitState where
  keepPackets : Bool
  packets : List PacketRec
  currentPacket : Nat
  runningProcesses : List ProcHandle
  closed : Bool
  encryption : Option String × String
deriving DecidableEq

/-- `FileCapture.__init__`: raises `FileNotFoundError` for a missing source,
`RawMustUseJsonException` for `include_raw` without `use_json`, and
`UnknownEncyptionStandardException` unless `encryption_type` is truthy and
its lower-casing is a supported standard; on success `_packets` is empty,
the cursor is 0, and `_running_processes` is empty — no subprocess is
spawned (the generator `_packets_from_tshark_sync()` is created but its
body does not run until the first `next()`). -/
def fileCaptureInit (cfg : InitConfig) : Except PyErr InitState :=
  if ¬ cfg.inputFileExists then .error .fileNotFoundError
  else if cfg.includeRaw ∧ ¬ cfg.useJson then .error .rawMustUseJson
  else if strTruthy cfg.encryptionType ∧
      pyLower (cfg.encryptionType.getD "") ∈ SUPPORTED_ENCRYPTION_STANDARDS then
    .ok { keepPackets := cfg.keepPackets, packets := [], currentPacket := 0,
          runningProcesses := [], closed := false,
          encryption := (cfg.decryptionKey, pyLower (cfg.encryptionType.getD "")) }
  else .error .unknownEncryptionStandard

/-- C8 (confirmed). Construction fails fast and in order — missing source
file first, then raw-without-JSON, then an unsupported (lower-cased)
encryption standard — and even a successful construction spawns no
subprocess: the resulting live process set is empty. -/
theorem c8_init_fails_fast (cfg : InitConfig) :
    (cfg.inputFileExists = false → fileCaptureInit cfg = .error .fileNotFoundError) ∧
    (cfg.inputFileExists = true → cfg.includeRaw = true → cfg.useJson = false →
      fileCaptureInit cfg = .error .rawMustUseJson) ∧
    (∀ s : String, cfg.inputFileExists = true → (cfg.includeRaw = true → cfg.useJson = true) →
      cfg.encryptionType = some s → pyLower s ∉ SUPPORTED_ENCRYPTION_STANDARDS →
      fileCaptureInit cfg = .error .unknownEncryptionStandard) ∧
    (∀ st : InitState, fileCaptureInit cfg = .ok st → st.runningProcesses = []) := by
  refine ⟨?_, ?_, ?_, ?_⟩
  · intro h
    simp [fileCaptureInit, h]
  · intro h1 h2 h3
    simp [fileCaptureInit, h1, h2, h3]
  · intro s h1 h2 h3 h4
    by_cases hjson : cfg.useJson = true
    · by_cases hraw : cfg.includeRaw = true
      · simp [fileCaptureInit, h1, h3, h4, hjson, hraw]
      · simp only [Bool.not_eq_true] at hraw
        simp [fileCaptureInit, h1, h3, h4, hraw]
    · have hraw : cfg.includeRaw = false := by
        cases hr : cfg.includeRaw
        · rfl
        · exact absurd (h2 hr) hjson
      simp [fileCaptureInit, h1, h3, h4, hraw]
  · intro st h
    rw [fileCaptureInit] at h
    by_cases h1 : cfg.inputFileExists = true
    · simp only [h1, not_true_eq_false, if_false] at h
      by_cases h2 : cfg.includeRaw = true ∧ cfg.useJson = false
      · simp [h2.1, h2.2] at h
      · rw [if_neg (by
          intro hc
          exact h2 ⟨by simpa using hc.1, by simpa using hc.2⟩)] at h
        by_cases h3 : strTruthy cfg.encryptionType = true ∧
            pyLower (cfg.encryptionType.getD "") ∈ SUPPORTED_ENCRYPTION_STANDARDS
        · rw [if_pos (by exact ⟨by simp [h3.1], h3.2⟩)] at h
          cases h
          rfl
        · rw [if_neg (by
            intro hc
            exact h3 ⟨by simpa using hc.1, hc.2⟩)] at h
          cases h
    · simp only [Bool.not_eq_true] at h1
      simp [h1] at h

/-- C8 witness: the three failure modes at concrete configurations, and an
empty process set on a concrete success. -/
theorem c8_init_fails_fast_witness :
    fileCaptureInit { inputFileExists := false, keepPackets := true, useJson := false,
                      includeRaw := false, decryptionKey := none,
                      encryptionType := some "wpa-pwd" } = .error .fileNotFoundError ∧
    fileCaptureInit { inputFileExists := true, keepPackets := true, useJson := false,
                      includeRaw := true, decryptionKey := none,
                      encryptionType := some "wpa-pwd" } = .error .rawMustUseJson ∧
    fileCaptureInit { inputFileExists := true, keepPackets := true, useJson := false,
                      includeRaw := false, decryptionKey := none,
                      encryptionType := some "rot13" } = .error .unknownEncryptionStandard :=
  ⟨(c8_init_fails_fast _).1 rfl,
   (c8_init_fails_fast _).2.1 rfl rfl rfl,
   (c8_init_fails_fast _).2.2.1 "rot13" rfl (by decide) rfl (by decide)⟩

/-- C10 (confirmed). A falsy `encryption_type` — `None` or the empty
string — fails the `encryption_type and ...` test, so the constructor
raises `UnknownEncyptionStandardException` even with no decryption key. -/
theorem c10_falsy_encryption_type_raises (cfg : InitConfig)
    (hfile : cfg.inputFileExists = true)
    (hraw : cfg.includeRaw = true → cfg.useJson = true)
    (_hkey : cfg.decryptionKey = none)
    (henc : cfg.encryptionType = none ∨ cfg.encryptionType = some "") :
    fileCaptureInit cfg = .error .unknownEncryptionStandard := by
  have hraw2 : ¬ (cfg.includeRaw ∧ ¬ cfg.useJson) := by
    intro hc
    have h1 : cfg.includeRaw = true := by simpa using hc.1
    exact hc.2 (hraw h1)
  have htr : strTruthy cfg.encryptionType = false := by
    rcases henc with h | h <;> simp [strTruthy, h]
  rw [fileCaptureInit, if_neg (by simp [hfile]), if_neg hraw2,
    if_neg (by simp [htr])]

/-- C10 witness: `encryption_type = None` and `encryption_type = ""`,
both with no decryption key. -/
theorem c10_falsy_encryption_type_raises_witness :
    fileCaptureInit { inputFileExists := true, keepPackets := true, useJson := false,
                      includeRaw := false, decryptionKey := none,
                      encryptionType := none } = .error .unknownEncryptionStandard ∧
    fileCaptureInit { inputFileExists := true, keepPackets := true, useJson := false,
                      includeRaw := false, decryptionKey := none,
                      encryptionType := some "" } = .error .unknownEncryptionStandard :=
  ⟨c10_falsy_encryption_type_raises
      { inputFileExists := true, keepPackets := true, useJson := false,
        includeRaw := false, decryptionKey := none, encryptionType := none }
      rfl (by decide) rfl (Or.inl rfl),
   c10_falsy_encryption_type_raises
      { inputFileExists := true, keepPackets := true, useJson := false,
        includeRaw := false, decryptionKey := none, encryptionType := some "" }
      rfl (by decide) rfl (Or.inr rfl)⟩

/-! ### Claim C9: the encryption override versus override_prefs -/

/-- `custom_parameters` may be `None`, a list, a dict, or (erroneously)
anything else, in which case `get_parameters` raises. -/
inductive CustomParams where
  | nothing
  | plist (l : List String)
  | pdict (l : List (String × String))
  | unsupported
deriving DecidableEq

/-- Python truthiness of `custom_parameters` (`None`, `[]` and `{}` are
falsy; an object of an unsupported type is truthy). -/
def customTruthy : CustomParams → Bool
  | .nothing => false
  | .plist l => !l.isEmpty
  | .pdict l => !l.isEmpty
  | .unsupported => true

/-- Python truthiness of an optional list/dict argument. -/
def optListTruthy {β : Type} : Option (List β) → Bool
  | none => false
  | some l => !l.isEmpty

/-- `all(self.encryption)` for `self.encryption = (decryption_key,
encryption_type.lower())`: both components must be truthy. -/
def allEncryption (e : Option String × String) : Bool :=
  strTruthy e.1 && decide (e.2 ≠ "")

/-- The arguments contributed by `custom_parameters` (list splice or
flattened dict items), or the `Exception` for an unsupported type. -/
def customParamsArgs : CustomParams → Except PyErr (List String)
  | .nothing => .ok []
  | .plist l => .ok l
  | .pdict l => .ok ((l.map (fun kv => [kv.1, kv.2])).flatten)
  | .unsupported => .error .customParamsUnsupported

/-- The configuration `get_parameters` reads. `displayFilterFlag` stands
for the external `get_tshark_display_filter_flag(version)`. -/
structure ParamsConfig where
  captureFilter : Option String
  displayFilter : Option String
  displayFilterFlag : String
  includeRaw : Bool
  customParameters : CustomParams
  encryption : Option String × String
  overridePrefs : Option (List (String × String))
  outputFile : Option String
  decodeAs : Option (List (String × String))
  disableProtocol : Option String
  inputFilename : String

/-- `FileCapture.get_parameters`. -/
def getParameters (cfg : ParamsConfig) (packetCount : Option Nat) :
    Except PyErr (List String) :=
  let params : List String := []
  let params := params ++
    (if strTruthy cfg.captureFilter then ["-f", cfg.captureFilter.getD ""] else [])
  let params := params ++
    (if strTruthy cfg.displayFilter then
      [cfg.displayFilterFlag, cfg.displayFilter.getD ""] else [])
  let params := params ++ (if cfg.includeRaw then ["-x"] else [])
  let params := params ++
    (if natTruthy packetCount then ["-c", toString (packetCount.getD 0)] else [])
  match (if customTruthy cfg.customParameters then customParamsArgs cfg.customParameters
         else .ok []) with
  | .error e => .error e
  | .ok customArgs =>
    let params := params ++ customArgs
    let params := params ++
      (if allEncryption cfg.encryption then
        ["-o", "wlan.enable_decryption:TRUE",
         "-o", "uat:80211_keys:\"" ++ cfg.encryption.2 ++ "\",\"" ++
               cfg.encryption.1.getD "" ++ "\""]
       else [])
    let params := params ++
      (if optListTruthy cfg.overridePrefs then
        ((cfg.overridePrefs.getD []).map (fun nv =>
          if allEncryption cfg.encryption ∧
              (nv.1 = "wlan.enable_decryption" ∨ nv.1 = "uat:80211_keys") then []
          else ["-o", nv.1 ++ ":" ++ nv.2])).flatten
       else [])
    let params := params ++
      (if strTruthy cfg.outputFile then ["-w", cfg.outputFile.getD ""] else [])
    let params := params ++
      (if optListTruthy cfg.decodeAs then
        ((cfg.decodeAs.getD []).map (fun cp => ["-d", cp.1.trim ++ "," ++ cp.2.trim])).flatten
       else [])
    let params := params ++
      (if strTruthy cfg.disableProtocol then
        ["--disable-protocol", (cfg.disableProtocol.getD "").trim] else [])
    .ok (params ++ ["-r", cfg.inputFilename])

/-- Does `arg` set the preference `key`, i.e. start with `key ++ ":"`? -/
def mentionsPref (key arg : String) : Bool :=
  listStartsWith arg.data (key.data ++ [':'])

theorem listStartsWith_head_ne {α : Type} [DecidableEq α] {x y : α} (h : ¬ (x = y))
    (xs ys : List α) : listStartsWith (x :: xs) (y :: ys) = false := by
  simp [listStartsWith, h]

theorem filter_flatten_nil {β γ : Type} (g : β → List γ) (P : γ → Bool) (l : List β)
    (h : ∀ b ∈ l, (g b).filter P = []) : ((l.map g).flatten).filter P = [] := by
  induction l with
  | nil => rfl
  | cons b bs ih =>
    rw [List.map_cons, List.flatten_cons, List.filter_append,
      h b (List.mem_cons_self b bs), List.nil_append]
    exact ih (fun b hb => h b (List.mem_cons_of_mem _ hb))

/-- The `-o uat:80211_keys:"..."` value emitted for the encryption pair
does set the reserved `uat:80211_keys` preference. -/
theorem mentionsPref_uat_value (etype key : String) :
    mentionsPref "uat:80211_keys"
      ("uat:80211_keys:\"" ++ etype ++ "\",\"" ++ key ++ "\"") = true := by
  rw [mentionsPref, String.data_append, String.data_append, String.data_append,
    String.data_append]
  rw [show ("uat:80211_keys:\"" : String).data
      = (("uat:80211_keys" : String).data ++ [':']) ++ ['"'] from rfl]
  have h := listStartsWith_append_self (("uat:80211_keys" : String).data ++ [':'])
    (['"'] ++ etype.data ++ ("\",\"" : String).data ++ key.data ++ ("\"" : String).data)
  rw [show (("uat:80211_keys" : String).data ++ [':']) ++
      (['"'] ++ etype.data ++ ("\",\"" : String).data ++ key.data ++ ("\"" : String).data)
      = ((((("uat:80211_keys" : String).data ++ [':']) ++ ['"']) ++ etype.data ++
          ("\",\"" : String).data ++ key.data ++ ("\"" : String).data)) by
    simp [List.append_assoc]] at h
  exact h

/-- That same value does not set `wlan.enable_decryption` (it starts with
`u`, not `w`). -/
theorem mentionsPref_wlan_uat_value (etype key : String) :
    mentionsPref "wlan.enable_decryption"
      ("uat:80211_keys:\"" ++ etype ++ "\",\"" ++ key ++ "\"") = false := by
  rw [mentionsPref, String.data_append, String.data_append, String.data_append,
    String.data_append]
  rw [show ("uat:80211_keys:\"" : String).data
      = 'u' :: ("at:80211_keys:\"" : String).data from rfl]
  rw [show ("wlan.enable_decryption" : String).data ++ [':']
      = 'w' :: (("lan.enable_decryption" : String).data ++ [':']) from rfl]
  simp only [List.cons_append]
  exact listStartsWith_head_ne (by decide) _ _

/-- The conclusions of C9 for an argument list of the shape
`extra ++ encryption-section ++ override-section ++ ["-r", input]`. -/
theorem c9_sections_core (key etype input : String) (prefs : List (String × String))
    (extra : List String)
    (hx1 : extra.filter (mentionsPref "wlan.enable_decryption") = [])
    (hx2 : extra.filter (mentionsPref "uat:80211_keys") = [])
    (hinput1 : mentionsPref "wlan.enable_decryption" input = false)
    (hinput2 : mentionsPref "uat:80211_keys" input = false)
    (hprefs : ∀ nv ∈ prefs, nv.1 ≠ "wlan.enable_decryption" → nv.1 ≠ "uat:80211_keys" →
        mentionsPref "wlan.enable_decryption" (nv.1 ++ ":" ++ nv.2) = false ∧
        mentionsPref "uat:80211_keys" (nv.1 ++ ":" ++ nv.2) = false) :
    (["-o", "wlan.enable_decryption:TRUE",
      "-o", "uat:80211_keys:\"" ++ etype ++ "\",\"" ++ key ++ "\""] <:+:
      extra ++ (["-o", "wlan.enable_decryption:TRUE",
        "-o", "uat:80211_keys:\"" ++ etype ++ "\",\"" ++ key ++ "\""] ++
        ((prefs.map (fun nv =>
          if nv.1 = "wlan.enable_decryption" ∨ nv.1 = "uat:80211_keys" then ([] : List String)
          else ["-o", nv.1 ++ ":" ++ nv.2])).flatten ++ ["-r", input]))) ∧
    ((extra ++ (["-o", "wlan.enable_decryption:TRUE",
        "-o", "uat:80211_keys:\"" ++ etype ++ "\",\"" ++ key ++ "\""] ++
        ((prefs.map (fun nv =>
          if nv.1 = "wlan.enable_decryption" ∨ nv.1 = "uat:80211_keys" then ([] : List String)
          else ["-o", nv.1 ++ ":" ++ nv.2])).flatten ++ ["-r", input]))).filter
      (mentionsPref "wlan.enable_decryption")).length = 1 ∧
    ((extra ++ (["-o", "wlan.enable_decryption:TRUE",
        "-o", "uat:80211_keys:\"" ++ etype ++ "\",\"" ++ key ++ "\""] ++
        ((prefs.map (fun nv =>
          if nv.1 = "wlan.enable_decryption" ∨ nv.1 = "uat:80211_keys" then ([] : List String)
          else ["-o", nv.1 ++ ":" ++ nv.2])).flatten ++ ["-r", input]))).filter
      (mentionsPref "uat:80211_keys")).length = 1 := by
  have hov1 : ((prefs.map (fun nv =>
      if nv.1 = "wlan.enable_decryption" ∨ nv.1 = "uat:80211_keys" then ([] : List String)
      else ["-o", nv.1 ++ ":" ++ nv.2])).flatten).filter
      (mentionsPref "wlan.enable_decryption") = [] := by
    refine filter_flatten_nil _ _ _ (fun nv hnv => ?_)
    by_cases hc : nv.1 = "wlan.enable_decryption" ∨ nv.1 = "uat:80211_keys"
    · simp [hc]
    · push_neg at hc
      have hm := hprefs nv hnv hc.1 hc.2
      simp [hc.1, hc.2, List.filter,
        show mentionsPref "wlan.enable_decryption" "-o" = false by decide, hm.1]
  have hov2 : ((prefs.map (fun nv =>
      if nv.1 = "wlan.enable_decryption" ∨ nv.1 = "uat:80211_keys" then ([] : List String)
      else ["-o", nv.1 ++ ":" ++ nv.2])).flatten).filter
      (mentionsPref "uat:80211_keys") = [] := by
    refine filter_flatten_nil _ _ _ (fun nv hnv => ?_)
    by_cases hc : nv.1 = "wlan.enable_decryption" ∨ nv.1 = "uat:80211_keys"
    · simp [hc]
    · push_neg at hc
      have hm := hprefs nv hnv hc.1 hc.2
      simp [hc.1, hc.2, List.filter,
        show mentionsPref "uat:80211_keys" "-o" = false by decide, hm.2]
  refine ⟨⟨extra, (prefs.map (fun nv =>
      if nv.1 = "wlan.enable_decryption" ∨ nv.1 = "uat:80211_keys" then ([] : List String)
      else ["-o", nv.1 ++ ":" ++ nv.2])).flatten ++ ["-r", input], by
    simp [List.append_assoc]⟩, ?_, ?_⟩
  · simp [List.filter_append, hx1, hov1, hinput1, List.filter,
      show mentionsPref "wlan.enable_decryption" "-o" = false by decide,
      show mentionsPref "wlan.enable_decryption" "wlan.enable_decryption:TRUE" = true by decide,
      show mentionsPref "wlan.enable_decryption" "-r" = false by decide,
      mentionsPref_wlan_uat_value]
  · simp [List.filter_append, hx2, hov2, hinput2, List.filter,
      show mentionsPref "uat:80211_keys" "-o" = false by decide,
      show mentionsPref "uat:80211_keys" "wlan.enable_decryption:TRUE" = false by decide,
      show mentionsPref "uat:80211_keys" "-r" = false by decide,
      mentionsPref_uat_value]

/-- C9 (confirmed). With both a decryption key and an encryption standard
set, and `override_prefs` touching either reserved preference key,
`get_parameters` emits the encryption-derived `-o` options, skips the
conflicting `override_prefs` entries, and each reserved key is set exactly
once in the resulting argument list. -/
theorem c9_encryption_override_wins (key etype input dflag : String) (includeRaw : Bool)
    (prefs : List (String × String))
    (hkey : key ≠ "") (htype : etype ≠ "")
    (hres : "wlan.enable_decryption" ∈ prefs.map Prod.fst ∨
            "uat:80211_keys" ∈ prefs.map Prod.fst)
    (hinput1 : mentionsPref "wlan.enable_decryption" input = false)
    (hinput2 : mentionsPref "uat:80211_keys" input = false)
    (hprefs : ∀ nv ∈ prefs, nv.1 ≠ "wlan.enable_decryption" → nv.1 ≠ "uat:80211_keys" →
        mentionsPref "wlan.enable_decryption" (nv.1 ++ ":" ++ nv.2) = false ∧
        mentionsPref "uat:80211_keys" (nv.1 ++ ":" ++ nv.2) = false) :
    ∃ args : List String,
      getParameters { captureFilter := none, displayFilter := none,
                      displayFilterFlag := dflag, includeRaw := includeRaw,
                      customParameters := .nothing, encryption := (some key, etype),
                      overridePrefs := some prefs, outputFile := none, decodeAs := none,
                      disableProtocol := none, inputFilename := input } none = .ok args ∧
      (["-o", "wlan.enable_decryption:TRUE",
        "-o", "uat:80211_keys:\"" ++ etype ++ "\",\"" ++ key ++ "\""] <:+: args) ∧
      (args.filter (mentionsPref "wlan.enable_decryption")).length = 1 ∧
      (args.filter (mentionsPref "uat:80211_keys")).length = 1 := by
  have hall : allEncryption (some key, etype) = true := by
    simp [allEncryption, strTruthy, hkey, htype]
  have hemp : prefs.isEmpty = false := by
    cases prefs with
    | nil => rcases hres with h | h <;> simp at h
    | cons a l => rfl
  have hargs : getParameters { captureFilter := none, displayFilter := none,
                               displayFilterFlag := dflag, includeRaw := includeRaw,
                               customParameters := .nothing, encryption := (some key, etype),
                               overridePrefs := some prefs, outputFile := none,
                               decodeAs := none, disableProtocol := none,
                               inputFilename := input } none
      = .ok ((if includeRaw then ["-x"] else []) ++
        (["-o", "wlan.enable_decryption:TRUE",
          "-o", "uat:80211_keys:\"" ++ etype ++ "\",\"" ++ key ++ "\""] ++
         ((prefs.map (fun nv =>
            if nv.1 = "wlan.enable_decryption" ∨ nv.1 = "uat:80211_keys" then ([] : List String)
            else ["-o", nv.1 ++ ":" ++ nv.2])).flatten ++ ["-r", input]))) := by
    simp [getParameters, hall, hemp, strTruthy, optListTruthy, customTruthy, natTruthy,
      customParamsArgs]
  have hx1 : (if includeRaw then ["-x"] else []).filter
      (mentionsPref "wlan.enable_decryption") = [] := by
    cases includeRaw <;>
      simp [List.filter, show mentionsPref "wlan.enable_decryption" "-x" = false by decide]
  have hx2 : (if includeRaw then ["-x"] else []).filter
      (mentionsPref "uat:80211_keys") = [] := by
    cases includeRaw <;>
      simp [List.filter, show mentionsPref "uat:80211_keys" "-x" = false by decide]
  exact ⟨_, hargs,
    c9_sections_core key etype input prefs (if includeRaw then ["-x"] else [])
      hx1 hx2 hinput1 hinput2 hprefs⟩

/-- C9 witness: a concrete configuration with key `k`, standard `wpa-pwd`,
and `override_prefs` supplying both a conflicting
`wlan.enable_decryption` entry and a harmless `foo` entry. -/
theorem c9_encryption_override_wins_witness :
    getParameters { captureFilter := none, displayFilter := none,
                    displayFilterFlag := "-Y", includeRaw := false,
                    customParameters := .nothing, encryption := (some "k", "wpa-pwd"),
                    overridePrefs := some [("wlan.enable_decryption", "FALSE"), ("foo", "bar")],
                    outputFile := none, decodeAs := none, disableProtocol := none,
                    inputFilename := "in.pcap" } none
      = .ok ["-o", "wlan.enable_decryption:TRUE", "-o", "uat:80211_keys:\"wpa-pwd\",\"k\"",
             "-o", "foo:bar", "-r", "in.pcap"] ∧
    (["-o", "wlan.enable_decryption:TRUE", "-o", "uat:80211_keys:\"wpa-pwd\",\"k\""] <:+:
      ["-o", "wlan.enable_decryption:TRUE", "-o", "uat:80211_keys:\"wpa-pwd\",\"k\"",
       "-o", "foo:bar", "-r", "in.pcap"]) ∧
    ((["-o", "wlan.enable_decryption:TRUE", "-o", "uat:80211_keys:\"wpa-pwd\",\"k\"",
       "-o", "foo:bar", "-r", "in.pcap"]).filter
        (mentionsPref "wlan.enable_decryption")).length = 1 ∧
    ((["-o", "wlan.enable_decryption:TRUE", "-o", "uat:80211_keys:\"wpa-pwd\",\"k\"",
       "-o", "foo:bar", "-r", "in.pcap"]).filter
        (mentionsPref "uat:80211_keys")).length = 1 := by
  obtain ⟨args, h1, h2, h3, h4⟩ := c9_encryption_override_wins "k" "wpa-pwd" "in.pcap" "-Y"
    false [("wlan.enable_decryption", "FALSE"), ("foo", "bar")]
    (by decide) (by decide) (by decide) (by decide) (by decide) (by decide)
  have heq : args = ["-o", "wlan.enable_decryption:TRUE",
      "-o", "uat:80211_keys:\"wpa-pwd\",\"k\"", "-o", "foo:bar", "-r", "in.pcap"] := by
    have h0 : Except.ok (ε := PyErr) args
        = Except.ok ["-o", "wlan.enable_decryption:TRUE",
          "-o", "uat:80211_keys:\"wpa-pwd\",\"k\"", "-o", "foo:bar", "-r", "in.pcap"] := by
      rw [← h1]
      rfl
    exact Except.ok.inj h0
  rw [heq] at h1 h2 h3 h4
  exact ⟨h1, h2, h3, h4⟩

end SimpleShark
